import Mathlib

/-
  Verification development for the trip-planning agent repository.

  Shallow embedding of the stateful trip-context core:
  the TripContext record and its mutation operations
  (captureTripParams, captureItineraryDays, confirmBooking), the
  guardrail tripwire computations, the itinerary recovery parser
  (parseItineraryFromText / ensureItinerarySavedIfMissing and the
  agent_end hook), the naive regex extractor, and the simplified
  booking-flow session from the conceptual demo file.

  JavaScript optional fields are modelled as Option; tool-argument
  fields that distinguish absent / null / value are modelled by JField.
  JS numbers appearing here are positive integers by schema, modelled
  as Nat (fractional budget amounts are modelled by the digits of
  their integer part; no claim depends on non-integral values).
-/

set_option maxRecDepth 4096

/-- A JS tool-argument field: absent (undefined), null, or a value. -/
inductive JField (α : Type) where
  | absent : JField α
  | null : JField α
  | val : α → JField α
deriving DecidableEq, Repr

/-- An itinerary day record, as produced by capture_itinerary_days
normalization and by the recovery parser. -/
structure Day where
  day : Option Nat
  date : Option String
  morning : List String
  afternoon : List String
  evening : List String
deriving DecidableEq, Repr

/-- The itineraryStatus values fresh | stale (the field itself is optional). -/
inductive ItinStatus where
  | fresh : ItinStatus
  | stale : ItinStatus
deriving DecidableEq, Repr

/-- The trip part of AppContext: the shared mutable trip record. -/
structure Trip where
  originCity : Option String
  destinationCity : Option String
  startDate : Option String
  endDate : Option String
  adults : Option Nat
  budgetAmount : Option Nat
  currency : Option String
  bookingConfirmed : Option Bool
  itinerary : Option (List Day)
  itineraryStatus : Option ItinStatus
  lastItinerarySignature : Option String
deriving DecidableEq, Repr

attribute [ext] Trip

/-- The empty trip record a session starts with. -/
def emptyTrip : Trip :=
  { originCity := none, destinationCity := none, startDate := none,
    endDate := none, adults := none, budgetAmount := none,
    currency := none, bookingConfirmed := none, itinerary := none,
    itineraryStatus := none, lastItinerarySignature := none }

/-- JSON string escaping for quote and backslash (control-character
escapes are omitted; no claim exercises them). -/
def jsonEscape (s : String) : String :=
  String.mk (s.toList.foldr
    (fun c acc =>
      match c with
      | '\\' => '\\' :: '\\' :: acc
      | '\"' => '\\' :: '\"' :: acc
      | c => c :: acc) [])

/-- JSON.stringify of a string-or-null value. -/
def jsonOptStr : Option String → String
  | none => "null"
  | some s => "\"" ++ jsonEscape s ++ "\""

/-- JSON.stringify of a number-or-null value. -/
def jsonOptNat : Option Nat → String
  | none => "null"
  | some n => toString n

/-- The critical-slot signature: JSON.stringify of the critical object
built in captureTripParams, with its fixed key order. -/
def criticalSig (t : Trip) : String :=
  "\x7b\"destinationCity\":" ++ jsonOptStr t.destinationCity ++
  ",\"startDate\":" ++ jsonOptStr t.startDate ++
  ",\"endDate\":" ++ jsonOptStr t.endDate ++
  ",\"adults\":" ++ jsonOptNat t.adults ++
  ",\"budgetAmount\":" ++ jsonOptNat t.budgetAmount ++ "\x7d"

/-- Arguments of capture_trip_params (all fields nullable+optional). -/
structure CaptureArgs where
  originCity : JField String
  destinationCity : JField String
  startDate : JField String
  endDate : JField String
  adults : JField Nat
  budgetAmount : JField Nat
  currency : JField String
deriving DecidableEq, Repr

/-- JS guard `if (args.x) updates.x = args.x` for a string field:
only a truthy (present, non-null, non-empty) value overwrites. -/
def updS (p : JField String) (old : Option String) : Option String :=
  match p with
  | JField.val s => if s = "" then old else some s
  | _ => old

/-- JS guard `if (typeof args.x === 'number') updates.x = args.x`:
only a present numeric value overwrites. -/
def updN (p : JField Nat) (old : Option Nat) : Option Nat :=
  match p with
  | JField.val n => some n
  | _ => old

/-- The `updates` spread of captureTripParams (and identically of
naiveExtractAndCapture): ctx.trip = \x7b ...ctx.trip, ...updates \x7d. -/
def applySlotUpdates (args : CaptureArgs) (t : Trip) : Trip :=
  { t with
    originCity := updS args.originCity t.originCity,
    destinationCity := updS args.destinationCity t.destinationCity,
    startDate := updS args.startDate t.startDate,
    endDate := updS args.endDate t.endDate,
    adults := updN args.adults t.adults,
    budgetAmount := updN args.budgetAmount t.budgetAmount,
    currency := updS args.currency t.currency }

/-- JS `(args.startDate && args.startDate !== prevStart)`: a truthy
argument that differs from the previous value. -/
def dateChangedCheck (p : JField String) (old : Option String) : Bool :=
  match p with
  | JField.val s => if s = "" then false else decide (some s ≠ old)
  | _ => false

/-- JS `Array.isArray(trip.itinerary) && trip.itinerary.length > 0`. -/
def hasItin (t : Trip) : Bool :=
  match t.itinerary with
  | some l => decide (0 < l.length)
  | none => false

/-- The execute body of the capture_trip_params tool (second document
of gaurdrail.ts): applies the sparse updates, recomputes the
critical-slot signature, stores it, marks the itinerary stale when the
signature changed, and again when dates changed while an itinerary
exists. -/
def captureTripParams (args : CaptureArgs) (t : Trip) : Trip :=
  let prevSig := t.lastItinerarySignature
  let datesChanged :=
    dateChangedCheck args.startDate t.startDate ||
    dateChangedCheck args.endDate t.endDate
  let t1 := applySlotUpdates args t
  let newSig := criticalSig t1
  let t2 := { t1 with lastItinerarySignature := some newSig }
  let t3 :=
    if prevSig ≠ some newSig then
      { t2 with itineraryStatus := some ItinStatus.stale }
    else t2
  if datesChanged && hasItin t3 then
    { t3 with itineraryStatus := some ItinStatus.stale }
  else t3

/-- The execute body of the confirm_booking tool: a false confirmation
is a silent no-op; a true one sets bookingConfirmed. -/
def confirmBooking (confirm : Bool) (t : Trip) : Trip :=
  if confirm then { t with bookingConfirmed := some true } else t

/-- One day item of the capture_itinerary_days payload (all fields
nullable+optional per schema). -/
structure DayArgs where
  day : JField Nat
  date : JField String
  morning : JField (List String)
  afternoon : JField (List String)
  evening : JField (List String)
deriving DecidableEq, Repr

/-- JS `x ?? undefined`: collapse null to undefined. -/
def jfToOpt {α : Type} : JField α → Option α
  | JField.val v => some v
  | _ => none

/-- JS `x ?? []`: null or undefined becomes the empty list. -/
def jfToList (p : JField (List String)) : List String :=
  match p with
  | JField.val l => l
  | _ => []

/-- The per-day normalization inside capture_itinerary_days. -/
def normDay (d : DayArgs) : Day :=
  { day := jfToOpt d.day, date := jfToOpt d.date,
    morning := jfToList d.morning,
    afternoon := jfToList d.afternoon,
    evening := jfToList d.evening }

/-- The execute body of the capture_itinerary_days tool: normalizes the
payload and assigns it to trip.itinerary, touching nothing else. -/
def captureItineraryDays (days : List DayArgs) (t : Trip) : Trip :=
  { t with itinerary := some (days.map normDay) }


/-
  Guardrail section: the safety classifier output schemas and the two
  input-guardrail execute bodies (unifiedTravelGuardrail of gaurdrail.ts
  and travelSafetyGuardrailNew of manager.ts / agents.ts). Side effects
  (logging, enhanced context) are out of scope; the returned decision
  record is modelled.
-/

/-- Guardrail decision enum allow | warn | block. -/
inductive Decision where
  | allow : Decision
  | warn : Decision
  | block : Decision
deriving DecidableEq, Repr

/-- Category enum of UnifiedGuardrailOutput. -/
inductive UCategory where
  | travel : UCategory
  | competitor : UCategory
  | nonTravel : UCategory
  | harmful : UCategory
  | injection : UCategory
  | illicit : UCategory
  | explicit : UCategory
deriving DecidableEq, Repr

/-- actionRequired enum of UnifiedGuardrailOutput. -/
inductive ActionRequired where
  | proceed : ActionRequired
  | redirect : ActionRequired
  | block : ActionRequired
  | requestDetails : ActionRequired
deriving DecidableEq, Repr

/-- The UnifiedGuardrailOutput record (zod schema of gaurdrail.ts). -/
structure GuardrailOutput where
  decision : Decision
  category : UCategory
  reason : String
  isTravel : Bool
  hasCompetitor : Bool
  competitorMentioned : Option (List String)
  missingSlots : Option (List String)
  recommendedResponse : Option String
  actionRequired : Option ActionRequired
deriving DecidableEq, Repr

/-- Outcome of the classifier run awaited inside a guardrail execute:
it produced an output record, it completed with an undefined
finalOutput, or it threw (exception, timeout, or schema-validation
failure on malformed output — all surface as a rejected promise). -/
inductive RunOutcome (α : Type) where
  | ok : α → RunOutcome α
  | okNone : RunOutcome α
  | err : RunOutcome α
deriving DecidableEq, Repr

/-- What a guardrail execute returns (context side effects omitted). -/
structure GuardrailDecisionRecord where
  outputInfo : Option GuardrailOutput
  tripwireTriggered : Bool
deriving DecidableEq, Repr

/-- The fallback record built in the catch branch of
unifiedTravelGuardrail (fail open with basic travel assumption). -/
def fallbackResult : GuardrailOutput :=
  { decision := Decision.allow, category := UCategory.travel,
    reason := "Guardrail analysis failed, defaulting to travel assistance",
    isTravel := true, hasCompetitor := false,
    competitorMentioned := none, missingSlots := none,
    recommendedResponse :=
      some "I'm here to help with your travel needs! What can I assist you with today?",
    actionRequired := some ActionRequired.proceed }

/-- The execute body of unifiedTravelGuardrail: on success the tripwire
is `decision === "block"`; on an undefined finalOutput everything is
optional-chained to false; on a throw the catch branch fails open. -/
def unifiedGuardrailExecute (r : RunOutcome GuardrailOutput) :
    GuardrailDecisionRecord :=
  match r with
  | RunOutcome.ok o =>
    { outputInfo := some o, tripwireTriggered := o.decision == Decision.block }
  | RunOutcome.okNone =>
    { outputInfo := none, tripwireTriggered := false }
  | RunOutcome.err =>
    { outputInfo := some fallbackResult, tripwireTriggered := false }

/-- Category enum of GuardrailSafetyOutput (manager.ts / agents.ts). -/
inductive SCategory where
  | travel : SCategory
  | nonTravel : SCategory
  | harmful : SCategory
  | injection : SCategory
  | illicit : SCategory
  | explicit : SCategory
deriving DecidableEq, Repr

/-- The GuardrailSafetyOutput record. -/
structure SafetyOutput where
  decision : Decision
  category : SCategory
  reason : String
  suggestion : Option String
  isTravel : Bool
  missingSlots : List String
deriving DecidableEq, Repr

/-- What travelSafetyGuardrailNew returns. -/
structure SafetyDecisionRecord where
  outputInfo : Option SafetyOutput
  tripwireTriggered : Bool
deriving DecidableEq, Repr

/-- The tripwire computation of travelSafetyGuardrailNew: block
decision or a policy-violation category (optional chaining makes an
undefined finalOutput yield false). -/
def travelSafetyTripwire (s : Option SafetyOutput) : Bool :=
  match s with
  | none => false
  | some s =>
    s.decision == Decision.block ||
    s.category == SCategory.harmful ||
    s.category == SCategory.injection ||
    s.category == SCategory.illicit ||
    s.category == SCategory.explicit

/-- The execute body of travelSafetyGuardrailNew (no catch branch). -/
def travelSafetyGuardrailNewExecute (s : Option SafetyOutput) :
    SafetyDecisionRecord :=
  { outputInfo := s, tripwireTriggered := travelSafetyTripwire s }

/-
  Recovery parser section: parseItineraryFromText and the post-run
  safety net ensureItinerarySavedIfMissing, plus the tripPlannerAgent
  agent_end hook that drives them. JS regexes are embedded as
  deterministic character scanners; for the patterns used here the
  greedy scan is equivalent to the backtracking regex semantics
  (every optional tail can match the empty string, and a shortened
  greedy character-class run can never satisfy the following check).
  JS whitespace and word characters are modelled for the ASCII inputs
  the repository exercises.
-/

/-- JS \s for the inputs in scope. -/
def jsSpace (c : Char) : Bool :=
  c = ' ' || c = '\t' || c = '\n' || c = '\r'

/-- JS \w : [A-Za-z0-9_]. -/
def wordChar (c : Char) : Bool :=
  c.isAlphanum || c = '_'

/-- Drop a run of \s* whitespace. -/
def dropJsSpaces (cs : List Char) : List Char :=
  cs.dropWhile jsSpace

/-- Trim (both ends) as String.prototype.trim does. -/
def trimChars (cs : List Char) : List Char :=
  ((cs.dropWhile jsSpace).reverse.dropWhile jsSpace).reverse

/-- Match a literal, case-sensitively; return the rest on success. -/
def stripLit : List Char → List Char → Option (List Char)
  | [], cs => some cs
  | _ :: _, [] => none
  | p :: ps, c :: cs => if c = p then stripLit ps cs else none

/-- Match a literal given in lowercase, case-insensitively. -/
def stripLitCI : List Char → List Char → Option (List Char)
  | [], cs => some cs
  | _ :: _, [] => none
  | p :: ps, c :: cs => if c.toLower = p then stripLitCI ps cs else none

/-- Numeric value of a digit run. -/
def natOfDigits (ds : List Char) : Nat :=
  ds.foldl (fun n c => n * 10 + (c.toNat - '0'.toNat)) 0

/-- \r?\n line splitting as in text.split(/\r?\n/). -/
def splitLinesJs (s : String) : List (List Char) :=
  go s.toList []
where
  go : List Char → List Char → List (List Char)
    | [], acc => [acc.reverse]
    | '\r' :: '\n' :: r, acc => acc.reverse :: go r []
    | '\n' :: r, acc => acc.reverse :: go r []
    | c :: r, acc => go r (c :: acc)

/-- Exactly dddd-dd-dd at the head; returns the matched characters
and the rest. -/
def dateAt : List Char → Option (String × List Char)
  | a :: b :: c :: d :: '-' :: e :: f :: '-' :: g :: h :: rest =>
    if a.isDigit && b.isDigit && c.isDigit && d.isDigit &&
       e.isDigit && f.isDigit && g.isDigit && h.isDigit then
      some (String.mk [a, b, c, d, '-', e, f, '-', g, h], rest)
    else none
  | _ => none

/-- Leftmost match of /\d\x7b4\x7d-\d\x7b2\x7d-\d\x7b2\x7d/ inside the text. -/
def findDate : List Char → Option String
  | [] => none
  | c :: cs =>
    match dateAt (c :: cs) with
    | some (d, _) => some d
    | none => findDate cs

/-- The day-header regex of parseItineraryFromText applied to a
trimmed line. The literal Day prefix (case-insensitive) is the only
mandatory part, so a match succeeds exactly when the line starts with
it; the captures are the optional day number and, when a parenthesized
group follows, the first ISO date inside it. -/
def matchDayHeader (cs : List Char) : Option (Option Nat × Option String) :=
  match stripLitCI ['d', 'a', 'y'] cs with
  | none => none
  | some r0 =>
    let r1 := dropJsSpaces r0
    let ds := r1.takeWhile Char.isDigit
    let r2 := r1.dropWhile Char.isDigit
    let dayNum := if ds.isEmpty then none else some (natOfDigits ds)
    let dateIso :=
      match dropJsSpaces r2 with
      | '(' :: r3 =>
        let content := r3.takeWhile (fun c => c ≠ ')')
        match r3.dropWhile (fun c => c ≠ ')') with
        | ')' :: _ => if content.isEmpty then none else findDate content
        | _ => none
      | _ => none
    some (dayNum, dateIso)

/-- Segment selector morning | afternoon | evening. -/
inductive Seg where
  | morning : Seg
  | afternoon : Seg
  | evening : Seg
deriving DecidableEq, Repr

/-- Append an activity to the given segment of a day under construction. -/
def pushSeg (d : Day) (s : Seg) (x : String) : Day :=
  match s with
  | Seg.morning => { d with morning := d.morning ++ [x] }
  | Seg.afternoon => { d with afternoon := d.afternoon ++ [x] }
  | Seg.evening => { d with evening := d.evening ++ [x] }

/-- The segment-header regex applied to a trimmed line: an optional
bullet, a case-insensitive Morning/Afternoon/Evening word, optional
whitespace, a colon, and the rest of the line after \s*. -/
def matchSegHeader (cs : List Char) : Option (Seg × List Char) :=
  let cs1 :=
    match cs with
    | '-' :: r => dropJsSpaces r
    | '•' :: r => dropJsSpaces r
    | _ => cs
  let finish := fun (s : Seg) (r : List Char) =>
    match dropJsSpaces r with
    | ':' :: r2 => some (s, dropJsSpaces r2)
    | _ => none
  match stripLitCI ['m', 'o', 'r', 'n', 'i', 'n', 'g'] cs1 with
  | some r => finish Seg.morning r
  | none =>
    match stripLitCI ['a', 'f', 't', 'e', 'r', 'n', 'o', 'o', 'n'] cs1 with
    | some r => finish Seg.afternoon r
    | none =>
      match stripLitCI ['e', 'v', 'e', 'n', 'i', 'n', 'g'] cs1 with
      | some r => finish Seg.evening r
      | none => none

/-- /^[-•]/ on the trimmed line. -/
def isBullet : List Char → Bool
  | '-' :: _ => true
  | '•' :: _ => true
  | _ => false

/-- line.replace of the leading bullet and following whitespace. -/
def stripBullet : List Char → List Char
  | '-' :: r => dropJsSpaces r
  | '•' :: r => dropJsSpaces r
  | cs => cs

/-- The line loop of parseItineraryFromText: tracks the day under
construction and the active segment, flushing a finished day when a
new day header arrives and at the end of input. -/
def parseLoop : List (List Char) → Option Day → Option Seg → List Day → List Day
  | [], cur, _, acc =>
    (match cur with
     | some d => acc ++ [d]
     | none => acc)
  | l :: ls, cur, seg, acc =>
    let line := trimChars l
    if line.isEmpty then parseLoop ls cur seg acc
    else
      match matchDayHeader line with
      | some (dn, dt) =>
        let acc1 :=
          match cur with
          | some d => acc ++ [d]
          | none => acc
        parseLoop ls
          (some { day := dn, date := dt, morning := [], afternoon := [], evening := [] })
          none acc1
      | none =>
        match matchSegHeader line with
        | some (s, rest) =>
          let base :=
            match cur with
            | some d => d
            | none => { day := none, date := none, morning := [], afternoon := [], evening := [] }
          let restT := String.mk (trimChars rest)
          let cur1 := if restT = "" then base else pushSeg base s restT
          parseLoop ls (some cur1) (some s) acc
        | none =>
          match cur, seg with
          | some d, some s =>
            if isBullet line then
              let content := String.mk (trimChars (stripBullet line))
              if content = "" then parseLoop ls (some d) (some s) acc
              else parseLoop ls (some (pushSeg d s content)) (some s) acc
            else parseLoop ls (some d) (some s) acc
          | _, _ => parseLoop ls cur seg acc

/-- Total number of captured activities of a day. -/
def dayTotal (d : Day) : Nat :=
  d.morning.length + d.afternoon.length + d.evening.length

/-- parseItineraryFromText: split into lines, run the loop, and keep
only days with at least one captured activity. -/
def parseItineraryFromText (text : String) : List Day :=
  (parseLoop (splitLinesJs text) none none []).filter (fun d => 0 < dayTotal d)

/-- /\bDay\b/i : a case-insensitive day word with word boundaries. -/
def testWordDay (text : String) : Bool :=
  go none text.toList
where
  boundaryPrev : Option Char → Bool
    | none => true
    | some c => !wordChar c
  boundaryNext : List Char → Bool
    | [] => true
    | c :: _ => !wordChar c
  go : Option Char → List Char → Bool
    | _, [] => false
    | prev, c :: cs =>
      (boundaryPrev prev &&
        (match stripLitCI ['d', 'a', 'y'] (c :: cs) with
         | some r => boundaryNext r
         | none => false)) ||
      go (some c) cs

/-- /(Morning|Afternoon|Evening)\s*:/i : a segment word followed by
optional whitespace and a colon, anywhere (no word boundary). -/
def testSegColon (text : String) : Bool :=
  go text.toList
where
  wordColon : List Char → Bool
    | cs =>
      (match stripLitCI ['m', 'o', 'r', 'n', 'i', 'n', 'g'] cs with
       | some r =>
         (match dropJsSpaces r with
          | ':' :: _ => true
          | _ => false)
       | none => false) ||
      (match stripLitCI ['a', 'f', 't', 'e', 'r', 'n', 'o', 'o', 'n'] cs with
       | some r =>
         (match dropJsSpaces r with
          | ':' :: _ => true
          | _ => false)
       | none => false) ||
      (match stripLitCI ['e', 'v', 'e', 'n', 'i', 'n', 'g'] cs with
       | some r =>
         (match dropJsSpaces r with
          | ':' :: _ => true
          | _ => false)
       | none => false)
  go : List Char → Bool
    | [] => false
    | c :: cs => wordColon (c :: cs) || go cs

/-- ensureItinerarySavedIfMissing: persist the parsed itinerary only
when the text looks like a plan, no itinerary is stored yet, and the
parser produced at least one day. -/
def ensureItinerarySavedIfMissing (outputText : String) (t : Trip) : Trip :=
  let hasPlanText := testWordDay outputText && testSegColon outputText
  if !hasPlanText || hasItin t then t
  else
    let parsed := parseItineraryFromText outputText
    if parsed.isEmpty then t
    else { t with itinerary := some parsed }

/-- The tripPlannerAgent agent_end hook: when the itinerary is stale or
missing and the final text is non-empty, run the safety net, then mark
the itinerary fresh if one is now stored. -/
def agentEndSafetyNet (finalText : String) (t : Trip) : Trip :=
  let isStale := t.itineraryStatus == some ItinStatus.stale || !hasItin t
  if isStale && finalText ≠ "" then
    let t1 := ensureItinerarySavedIfMissing finalText t
    if hasItin t1 then { t1 with itineraryStatus := some ItinStatus.fresh }
    else t1
  else t


/-
  Naive extractor section: naiveExtractAndCapture, the deterministic
  regex fallback that updates the trip record directly. Each JS regex
  is embedded as a leftmost scan; for these patterns the greedy run of
  a character class can never be usefully shortened by backtracking
  (the following requirement always fails on a class character), so
  the deterministic scan is exact.
-/

/-- Leftmost-match scanner: try the matcher at every position, keeping
track of the previous character for word-boundary checks. -/
def scanPos {α : Type} (f : Option Char → List Char → Option α) :
    Option Char → List Char → Option α
  | _, [] => none
  | prev, c :: cs =>
    match f prev (c :: cs) with
    | some a => some a
    | none => scanPos f (some c) cs

/-- \b before the current position. -/
def boundaryPrevOk : Option Char → Bool
  | none => true
  | some c => !wordChar c

/-- \b after a capture: next character absent or not a word character. -/
def boundaryNextOk : List Char → Bool
  | [] => true
  | c :: _ => !wordChar c

/-- \s+ : at least one whitespace character, consumed greedily. -/
def reqSpaces1 : List Char → Option (List Char)
  | [] => none
  | c :: r => if jsSpace c then some (r.dropWhile jsSpace) else none

/-- ([A-Z][a-zA-Z]+)\b : a capitalized word of length at least two,
ending at a word boundary. -/
def capWordB (cs : List Char) : Option String :=
  match cs with
  | [] => none
  | c :: r =>
    if c.isUpper then
      let ls := r.takeWhile Char.isAlpha
      let rest := r.dropWhile Char.isAlpha
      if ls.isEmpty then none
      else if boundaryNextOk rest then some (String.mk (c :: ls)) else none
    else none

/-- /\bfrom\s+([A-Z][a-zA-Z]+)\b/ . -/
def scanOrigin (cs : List Char) : Option String :=
  scanPos
    (fun prev cs =>
      if boundaryPrevOk prev then
        match stripLit ['f', 'r', 'o', 'm'] cs with
        | some r =>
          match reqSpaces1 r with
          | some r1 => capWordB r1
          | none => none
        | none => none
      else none)
    none cs

/-- /\b(?:to|in|of)\s+([A-Z][a-zA-Z]+)\b/ . -/
def scanDest (cs : List Char) : Option String :=
  scanPos
    (fun prev cs =>
      if boundaryPrevOk prev then
        let kw :=
          match stripLit ['t', 'o'] cs with
          | some r => some r
          | none =>
            match stripLit ['i', 'n'] cs with
            | some r => some r
            | none => stripLit ['o', 'f'] cs
        match kw with
        | some r =>
          match reqSpaces1 r with
          | some r1 => capWordB r1
          | none => none
        | none => none
      else none)
    none cs

/-- /thinking\s+(?:about|of)\s+([A-Z][a-zA-Z]+)\b/ . -/
def scanThinking (cs : List Char) : Option String :=
  scanPos
    (fun _ cs =>
      match stripLit ['t', 'h', 'i', 'n', 'k', 'i', 'n', 'g'] cs with
      | some r =>
        match reqSpaces1 r with
        | some r1 =>
          let kw :=
            match stripLit ['a', 'b', 'o', 'u', 't'] r1 with
            | some r2 => some r2
            | none => stripLit ['o', 'f'] r1
          match kw with
          | some r2 =>
            match reqSpaces1 r2 with
            | some r3 => capWordB r3
            | none => none
          | none => none
        | none => none
      | none => none)
    none cs

/-- /(\d\x7b4\x7d-\d\x7b2\x7d-\d\x7b2\x7d)\s*(?:to|–|-)\s*(\d\x7b4\x7d-\d\x7b2\x7d-\d\x7b2\x7d)/ . -/
def scanRange (cs : List Char) : Option (String × String) :=
  scanPos
    (fun _ cs =>
      match dateAt cs with
      | some (d1, r1) =>
        let r2 := dropJsSpaces r1
        let sep :=
          match stripLit ['t', 'o'] r2 with
          | some r => some r
          | none =>
            match stripLit ['–'] r2 with
            | some r => some r
            | none => stripLit ['-'] r2
        match sep with
        | some r3 =>
          match dateAt (dropJsSpaces r3) with
          | some (d2, _) => some (d1, d2)
          | none => none
        | none => none
      | none => none)
    none cs

/-- /starting\s+(\d\x7b4\x7d-\d\x7b2\x7d-\d\x7b2\x7d)/ . -/
def scanStartOnly (cs : List Char) : Option String :=
  scanPos
    (fun _ cs =>
      match stripLit ['s', 't', 'a', 'r', 't', 'i', 'n', 'g'] cs with
      | some r =>
        match reqSpaces1 r with
        | some r1 =>
          match dateAt r1 with
          | some (d, _) => some d
          | none => none
        | none => none
      | none => none)
    none cs

/-- /(\d+)\s+adults?\b/ : a digit run, whitespace, the literal adult
with an optional s, ending at a word boundary. -/
def scanAdults (cs : List Char) : Option Nat :=
  scanPos
    (fun _ cs =>
      let ds := cs.takeWhile Char.isDigit
      let r1 := cs.dropWhile Char.isDigit
      if ds.isEmpty then none
      else
        match reqSpaces1 r1 with
        | some r2 =>
          match stripLit ['a', 'd', 'u', 'l', 't'] r2 with
          | some r3 =>
            match r3 with
            | 's' :: r4 =>
              if boundaryNextOk r4 then some (natOfDigits ds) else none
            | _ =>
              if boundaryNextOk r3 then some (natOfDigits ds) else none
          | none => none
        | none => none)
    none cs

/-- [\d,]+(?:\.\d+)? after a currency sign and \s? — the numeric value
is Number of the capture with commas removed; modelled by the digits
of the integer part. -/
def moneyAmount (cs : List Char) : Option Nat :=
  let isDC := fun (c : Char) => c.isDigit || c = ','
  let grp := cs.takeWhile isDC
  if grp.isEmpty then none else some (natOfDigits (grp.filter Char.isDigit))

/-- /₹\s?([\d,]+(?:\.\d+)?)/ . -/
def scanINR (cs : List Char) : Option Nat :=
  scanPos
    (fun _ cs =>
      match cs with
      | '₹' :: r =>
        let r1 :=
          match r with
          | c :: r2 => if jsSpace c then r2 else r
          | [] => []
        moneyAmount r1
      | _ => none)
    none cs

/-- /\$\s?([\d,]+(?:\.\d+)?)/ . -/
def scanUSD (cs : List Char) : Option Nat :=
  scanPos
    (fun _ cs =>
      match cs with
      | '$' :: r =>
        let r1 :=
          match r with
          | c :: r2 => if jsSpace c then r2 else r
          | [] => []
        moneyAmount r1
      | _ => none)
    none cs

/-- Lift an extraction result into a tool-argument field (the JS code
only ever assigns matched, non-null values). -/
def jfOf {α : Type} : Option α → JField α
  | some v => JField.val v
  | none => JField.absent

/-- The args object built by naiveExtractAndCapture from the user text. -/
def naiveExtract (userText : String) : CaptureArgs :=
  let cs := userText.toList
  let origin := scanOrigin cs
  let dest :=
    match scanDest cs with
    | some d => some d
    | none => scanThinking cs
  let dates :=
    match scanRange cs with
    | some (a, b) => (some a, some b)
    | none => (scanStartOnly cs, (none : Option String))
  let ad := scanAdults cs
  let money :=
    match scanINR cs with
    | some n => (some "INR", some n)
    | none =>
      match scanUSD cs with
      | some n => (some "USD", some n)
      | none => ((none : Option String), (none : Option Nat))
  { originCity := jfOf origin, destinationCity := jfOf dest,
    startDate := jfOf dates.1, endDate := jfOf dates.2,
    adults := jfOf ad, budgetAmount := jfOf money.2,
    currency := jfOf money.1 }

/-- Object.keys(args).length > 0 : some field was assigned. -/
def hasAnyArg (a : CaptureArgs) : Bool :=
  a.originCity ≠ JField.absent || a.destinationCity ≠ JField.absent ||
  a.startDate ≠ JField.absent || a.endDate ≠ JField.absent ||
  a.adults ≠ JField.absent || a.budgetAmount ≠ JField.absent ||
  a.currency ≠ JField.absent

/-- naiveExtractAndCapture: extract, skip if nothing was detected,
otherwise spread the updates over the trip record directly (the guard
conditions are the same truthiness and typeof checks as in
captureTripParams, so the spread is applySlotUpdates). -/
def naiveExtractAndCapture (userText : String) (t : Trip) : Trip :=
  let args := naiveExtract userText
  if hasAnyArg args then applySlotUpdates args t else t


/-
  Simplified multi-agent booking flow (the conceptual demo file):
  session record and the booking agent process, which gates on the
  validation flags and, when satisfied, stores the booking details.
  The random booking-id suffix is passed in as a parameter.
-/

/-- The itinerary object built by the itinerary agent of the demo. -/
structure DemoItinerary where
  destination : Option String
  days : Nat
  activities : List String
deriving DecidableEq, Repr

/-- The booking details stored on success. -/
structure BookingDetails where
  bookingId : String
  status : String
deriving DecidableEq, Repr

/-- The per-chat session state of the demo flow. -/
structure Session where
  destination : Option String
  isDestinationValidated : Bool
  dates : Option String
  paxCount : Option Nat
  demoItinerary : Option DemoItinerary
  isItineraryFinalized : Bool
  bookingDetails : Option BookingDetails
deriving DecidableEq, Repr

/-- The response object of a demo agent. -/
structure AgentResponse where
  success : Bool
  message : String
  redirect : Option String
deriving DecidableEq, Repr

/-- agents.booking.process: reject with a redirect when the destination
is not validated or the itinerary is not finalized; otherwise store
confirmed booking details. -/
def bookingProcess (randomId : String) (s : Session) :
    AgentResponse × Session :=
  if !s.isDestinationValidated then
    ({ success := false,
       message := "❌ Cannot book: Destination not validated",
       redirect := some "destination" }, s)
  else if !s.isItineraryFinalized then
    ({ success := false,
       message := "❌ Cannot book: Itinerary not finalized",
       redirect := some "itinerary" }, s)
  else
    let s1 := { s with
      bookingDetails := some { bookingId := "BK" ++ randomId, status := "confirmed" } }
    ({ success := true,
       message := "✓ Booking confirmed! ID: BK" ++ randomId,
       redirect := none }, s1)

/-
  Lemma section: a closed-form characterization of captureTripParams
  used by the slot-update claims.
-/

/-- The combined condition under which captureTripParams marks the
itinerary stale: the signature changed, or dates changed while an
itinerary is stored. -/
def staleCond (args : CaptureArgs) (t : Trip) : Bool :=
  decide (t.lastItinerarySignature ≠ some (criticalSig (applySlotUpdates args t))) ||
  ((dateChangedCheck args.startDate t.startDate ||
    dateChangedCheck args.endDate t.endDate) && hasItin t)

theorem hasItin_set_sig (t : Trip) (sig : Option String) :
    hasItin { t with lastItinerarySignature := sig } = hasItin t := rfl

theorem hasItin_set_sig_status (t : Trip) (sig : Option String)
    (st : Option ItinStatus) :
    hasItin { t with lastItinerarySignature := sig, itineraryStatus := st }
    = hasItin t := rfl

theorem hasItin_applySlot (args : CaptureArgs) (t : Trip) :
    hasItin (applySlotUpdates args t) = hasItin t := rfl

theorem captureTripParams_eq (args : CaptureArgs) (t : Trip) :
    captureTripParams args t =
      { applySlotUpdates args t with
        lastItinerarySignature := some (criticalSig (applySlotUpdates args t)),
        itineraryStatus :=
          if staleCond args t then some ItinStatus.stale
          else t.itineraryStatus } := by
  simp only [captureTripParams]
  by_cases h1 :
      t.lastItinerarySignature = some (criticalSig (applySlotUpdates args t))
  · rw [if_neg (show ¬(t.lastItinerarySignature ≠
        some (criticalSig (applySlotUpdates args t))) from fun hc => hc h1)]
    rw [hasItin_set_sig, hasItin_applySlot]
    by_cases h2 : ((dateChangedCheck args.startDate t.startDate ||
        dateChangedCheck args.endDate t.endDate) && hasItin t) = true
    · have hsc : staleCond args t = true := by
        simp [staleCond, h1, h2]
      rw [if_pos h2, hsc]
      rfl
    · have h2f : ((dateChangedCheck args.startDate t.startDate ||
          dateChangedCheck args.endDate t.endDate) && hasItin t) = false :=
        Bool.eq_false_iff.mpr h2
      have hsc : staleCond args t = false := by
        simp [staleCond, h1, h2f]
      rw [if_neg h2, hsc]
      rfl
  · rw [if_pos (show t.lastItinerarySignature ≠
        some (criticalSig (applySlotUpdates args t)) from h1)]
    rw [hasItin_set_sig_status, hasItin_applySlot]
    have hsc : staleCond args t = true := by
      simp [staleCond, h1]
    by_cases h2 : ((dateChangedCheck args.startDate t.startDate ||
        dateChangedCheck args.endDate t.endDate) && hasItin t) = true
    · rw [if_pos h2, hsc]
      rfl
    · rw [if_neg h2, hsc]
      rfl

theorem updS_idem (p : JField String) (old : Option String) :
    updS p (updS p old) = updS p old := by
  cases p with
  | val s =>
    by_cases h : s = "" <;> simp [updS, h]
  | absent => rfl
  | null => rfl

theorem updN_idem (p : JField Nat) (old : Option Nat) :
    updN p (updN p old) = updN p old := by
  cases p <;> rfl

theorem updS_missing (p : JField String) (old : Option String)
    (h : p = JField.absent ∨ p = JField.null) : updS p old = old := by
  rcases h with h | h <;> subst h <;> rfl

theorem updN_missing (p : JField Nat) (old : Option Nat)
    (h : p = JField.absent ∨ p = JField.null) : updN p old = old := by
  rcases h with h | h <;> subst h <;> rfl

theorem dateChangedCheck_upd (p : JField String) (old : Option String) :
    dateChangedCheck p (updS p old) = false := by
  cases p with
  | val s =>
    by_cases h : s = "" <;> simp [dateChangedCheck, updS, h]
  | absent => rfl
  | null => rfl

theorem applySlotUpdates_after (args : CaptureArgs) (t : Trip)
    (sig : Option String) (st : Option ItinStatus) :
    applySlotUpdates args
      { applySlotUpdates args t with
        lastItinerarySignature := sig, itineraryStatus := st } =
      { applySlotUpdates args t with
        lastItinerarySignature := sig, itineraryStatus := st } := by
  simp [applySlotUpdates, updS_idem, updN_idem]

/-
  Claims section.
-/

/-- Claim C1: every accepted slot update through captureTripParams
recomputes the critical-slot signature, and whenever the new signature
differs from the previously stored lastItinerarySignature the
itineraryStatus is stale after the call, whether or not an itinerary
exists. -/
theorem C1_capture_marks_stale_on_sig_change (args : CaptureArgs) (t : Trip) :
    (captureTripParams args t).lastItinerarySignature
      = some (criticalSig (applySlotUpdates args t)) ∧
    (t.lastItinerarySignature ≠ some (criticalSig (applySlotUpdates args t)) →
      (captureTripParams args t).itineraryStatus = some ItinStatus.stale) := by
  rw [captureTripParams_eq]
  refine ⟨rfl, fun h => ?_⟩
  have hsc : staleCond args t = true := by simp [staleCond, h]
  simp [hsc]

/-- A concrete update that only sets the destination city. -/
def romeArgs : CaptureArgs :=
  { originCity := JField.absent, destinationCity := JField.val "Rome",
    startDate := JField.absent, endDate := JField.absent,
    adults := JField.absent, budgetAmount := JField.absent,
    currency := JField.absent }

/-- Witness for C1 at a concrete input: the empty trip has no stored
signature, so the first capture differs and marks the status stale. -/
theorem C1_capture_marks_stale_on_sig_change_witness :
    emptyTrip.lastItinerarySignature
      ≠ some (criticalSig (applySlotUpdates romeArgs emptyTrip)) ∧
    (captureTripParams romeArgs emptyTrip).itineraryStatus
      = some ItinStatus.stale :=
  ⟨by decide,
   (C1_capture_marks_stale_on_sig_change romeArgs emptyTrip).2 (by decide)⟩

/-- Amended claim C2: capture_itinerary_days replaces the itinerary
wholesale with the normalized payload (it never merges), but it leaves
itineraryStatus and lastItinerarySignature untouched — it does not set
the status fresh and does not update the signature. -/
theorem C2_capture_itinerary_wholesale (days : List DayArgs) (t : Trip) :
    (captureItineraryDays days t).itinerary = some (days.map normDay) ∧
    (captureItineraryDays days t).itineraryStatus = t.itineraryStatus ∧
    (captureItineraryDays days t).lastItinerarySignature
      = t.lastItinerarySignature ∧
    (captureItineraryDays days t)
      = { t with itinerary := some (days.map normDay) } :=
  ⟨rfl, rfl, rfl, rfl⟩

/-- A trip whose stored itinerary state is stale with an old signature. -/
def staleTrip : Trip :=
  { emptyTrip with
    destinationCity := some "Rome",
    itineraryStatus := some ItinStatus.stale,
    lastItinerarySignature := some "old" }

/-- A one-day payload for capture_itinerary_days. -/
def sampleDays : List DayArgs :=
  [{ day := JField.val 1, date := JField.absent,
     morning := JField.val ["Colosseum"], afternoon := JField.null,
     evening := JField.absent }]

/-- Counterexample to claim C2 as stated: after capture_itinerary_days
the status is still stale, not fresh, and the stored signature is not
the signature of the current critical slots. -/
theorem C2_counterexample_status_not_fresh :
    (captureItineraryDays sampleDays staleTrip).itineraryStatus
      ≠ some ItinStatus.fresh ∧
    (captureItineraryDays sampleDays staleTrip).lastItinerarySignature
      ≠ some (criticalSig (captureItineraryDays sampleDays staleTrip)) := by
  decide

/-- Claim C3: when the classifier run of unifiedTravelGuardrail throws
(exception, timeout, or schema failure on malformed output), the catch
branch fails open: the decision record is the allow/travel fallback
with a generic helpful message and the tripwire is not triggered. -/
theorem C3_fail_open :
    unifiedGuardrailExecute RunOutcome.err
      = { outputInfo := some fallbackResult, tripwireTriggered := false } ∧
    fallbackResult.decision = Decision.allow ∧
    fallbackResult.category = UCategory.travel ∧
    fallbackResult.recommendedResponse ≠ none :=
  ⟨rfl, rfl, rfl, by decide⟩

/-- Amended claim C4: the iff between the tripwire and
(decision = block or a policy-violation category) holds for
travelSafetyGuardrailNew; for unifiedTravelGuardrail the tripwire is
equivalent to decision = block alone — the category is ignored. -/
theorem C4_amended_tripwire_formulas :
    (∀ s : SafetyOutput,
      ((travelSafetyGuardrailNewExecute (some s)).tripwireTriggered = true ↔
        (s.decision = Decision.block ∨ s.category = SCategory.harmful ∨
         s.category = SCategory.injection ∨ s.category = SCategory.illicit ∨
         s.category = SCategory.explicit))) ∧
    (∀ o : GuardrailOutput,
      ((unifiedGuardrailExecute (RunOutcome.ok o)).tripwireTriggered = true ↔
        o.decision = Decision.block)) := by
  constructor
  · intro s
    simp only [travelSafetyGuardrailNewExecute, travelSafetyTripwire,
      Bool.or_eq_true, beq_iff_eq]
    tauto
  · intro o
    simp [unifiedGuardrailExecute]

/-- A classifier output with decision allow but category harmful. -/
def allowHarmfulOutput : GuardrailOutput :=
  { decision := Decision.allow, category := UCategory.harmful,
    reason := "test", isTravel := false, hasCompetitor := false,
    competitorMentioned := none, missingSlots := none,
    recommendedResponse := none, actionRequired := none }

/-- Counterexample to claim C4 as stated: for unifiedTravelGuardrail
the claimed iff fails on an allow/harmful output — the category is in
the policy-violation set, yet the tripwire is not triggered. -/
theorem C4_counterexample_category_ignored :
    ¬(((unifiedGuardrailExecute (RunOutcome.ok allowHarmfulOutput)).tripwireTriggered
        = true) ↔
      (allowHarmfulOutput.decision = Decision.block ∨
       allowHarmfulOutput.category = UCategory.harmful ∨
       allowHarmfulOutput.category = UCategory.injection ∨
       allowHarmfulOutput.category = UCategory.illicit ∨
       allowHarmfulOutput.category = UCategory.explicit)) := by
  decide

/-- The single-line itinerary text of the C5 scenario. -/
def c5Text : String := "Day 1: Morning: Visit museum"

/-- Counterexample to claim C5 as stated: on that single line the
recovery parser does not produce the claimed one-day itinerary, and
the agent_end recovery path does not mark the itinerary fresh. -/
theorem C5_counterexample_no_single_day :
    parseItineraryFromText c5Text
      ≠ [{ day := some 1, date := none, morning := ["Visit museum"],
           afternoon := [], evening := [] }] ∧
    (agentEndSafetyNet c5Text emptyTrip).itineraryStatus
      ≠ some ItinStatus.fresh := by
  decide

/-- Amended claim C5: the whole line matches the day-header pattern, so
the parser opens a day and discards the segment text; the day has no
activities and is filtered out, the parse result is empty, and the
recovery path leaves the context unchanged — nothing is stored and the
status is not set fresh. -/
theorem C5_amended_recovery_noop :
    parseItineraryFromText c5Text = [] ∧
    ensureItinerarySavedIfMissing c5Text emptyTrip = emptyTrip ∧
    agentEndSafetyNet c5Text emptyTrip = emptyTrip := by
  decide

/-- Claim C6: in a sparse partial slot update, every field that is
absent or present with a null value leaves the corresponding trip
field unchanged — absence never clears an existing value. -/
theorem C6_missing_fields_are_noops (args : CaptureArgs) (t : Trip) :
    ((args.originCity = JField.absent ∨ args.originCity = JField.null) →
      (captureTripParams args t).originCity = t.originCity) ∧
    ((args.destinationCity = JField.absent ∨ args.destinationCity = JField.null) →
      (captureTripParams args t).destinationCity = t.destinationCity) ∧
    ((args.startDate = JField.absent ∨ args.startDate = JField.null) →
      (captureTripParams args t).startDate = t.startDate) ∧
    ((args.endDate = JField.absent ∨ args.endDate = JField.null) →
      (captureTripParams args t).endDate = t.endDate) ∧
    ((args.adults = JField.absent ∨ args.adults = JField.null) →
      (captureTripParams args t).adults = t.adults) ∧
    ((args.budgetAmount = JField.absent ∨ args.budgetAmount = JField.null) →
      (captureTripParams args t).budgetAmount = t.budgetAmount) ∧
    ((args.currency = JField.absent ∨ args.currency = JField.null) →
      (captureTripParams args t).currency = t.currency) := by
  rw [captureTripParams_eq]
  refine ⟨fun h => ?_, fun h => ?_, fun h => ?_, fun h => ?_,
    fun h => ?_, fun h => ?_, fun h => ?_⟩
  · exact updS_missing args.originCity t.originCity h
  · exact updS_missing args.destinationCity t.destinationCity h
  · exact updS_missing args.startDate t.startDate h
  · exact updS_missing args.endDate t.endDate h
  · exact updN_missing args.adults t.adults h
  · exact updN_missing args.budgetAmount t.budgetAmount h
  · exact updS_missing args.currency t.currency h

/-- A sparse update with an absent origin and a null destination. -/
def sparseNullArgs : CaptureArgs :=
  { originCity := JField.absent, destinationCity := JField.null,
    startDate := JField.val "2026-05-04", endDate := JField.absent,
    adults := JField.null, budgetAmount := JField.absent,
    currency := JField.absent }

/-- A trip that already holds values for the untouched fields. -/
def filledTrip : Trip :=
  { emptyTrip with
    originCity := some "Mumbai", destinationCity := some "Rome",
    startDate := some "2026-05-03", endDate := some "2026-05-08",
    adults := some 2 }

/-- Witness for C6 at a concrete input: the absent origin, the null
destination and the null adults fields survive the update. -/
theorem C6_missing_fields_are_noops_witness :
    (captureTripParams sparseNullArgs filledTrip).originCity
      = filledTrip.originCity ∧
    (captureTripParams sparseNullArgs filledTrip).destinationCity
      = filledTrip.destinationCity ∧
    (captureTripParams sparseNullArgs filledTrip).adults
      = filledTrip.adults :=
  ⟨(C6_missing_fields_are_noops sparseNullArgs filledTrip).1 (Or.inl rfl),
   (C6_missing_fields_are_noops sparseNullArgs filledTrip).2.1 (Or.inr rfl),
   (C6_missing_fields_are_noops sparseNullArgs filledTrip).2.2.2.2.1 (Or.inr rfl)⟩

/-- Claim C7: applying the same partial slot update twice through
captureTripParams yields exactly the same trip record (all slots,
itinerary, status and signature) as applying it once. -/
theorem applySlot_startDate (args : CaptureArgs) (t : Trip) :
    (applySlotUpdates args t).startDate = updS args.startDate t.startDate := rfl

theorem applySlot_endDate (args : CaptureArgs) (t : Trip) :
    (applySlotUpdates args t).endDate = updS args.endDate t.endDate := rfl

theorem C7_capture_idempotent (args : CaptureArgs) (t : Trip) :
    captureTripParams args (captureTripParams args t)
      = captureTripParams args t := by
  rw [captureTripParams_eq args t]
  rw [captureTripParams_eq args]
  rw [applySlotUpdates_after]
  have e1 : criticalSig
      { applySlotUpdates args t with
        lastItinerarySignature := some (criticalSig (applySlotUpdates args t)),
        itineraryStatus :=
          if staleCond args t then some ItinStatus.stale
          else t.itineraryStatus } = criticalSig (applySlotUpdates args t) := rfl
  have hsc : staleCond args
      { applySlotUpdates args t with
        lastItinerarySignature := some (criticalSig (applySlotUpdates args t)),
        itineraryStatus :=
          if staleCond args t then some ItinStatus.stale
          else t.itineraryStatus } = false := by
    simp only [staleCond, applySlotUpdates_after, e1]
    simp [dateChangedCheck_upd, applySlot_startDate, applySlot_endDate]
    rfl
  rw [hsc]
  rfl

/-- Claim C8: the recovery safety net is idempotent — running
ensureItinerarySavedIfMissing twice on the same finalized text yields
the same trip record as running it once — and whenever the context
already holds a non-empty itinerary (e.g. captured via the tool path)
it is a no-op, so it never appends or duplicates days. -/
theorem C8_recovery_idempotent (text : String) (t : Trip) :
    ensureItinerarySavedIfMissing text (ensureItinerarySavedIfMissing text t)
      = ensureItinerarySavedIfMissing text t ∧
    (hasItin t = true → ensureItinerarySavedIfMissing text t = t) := by
  constructor
  · by_cases hc :
        (!(testWordDay text && testSegColon text) || hasItin t) = true
    · have h1 : ensureItinerarySavedIfMissing text t = t := by
        simp only [ensureItinerarySavedIfMissing]
        rw [if_pos hc]
      rw [h1]
      exact h1
    · by_cases hp : (parseItineraryFromText text).isEmpty = true
      · have h1 : ensureItinerarySavedIfMissing text t = t := by
          simp only [ensureItinerarySavedIfMissing]
          rw [if_neg hc, if_pos hp]
        rw [h1]
        exact h1
      · have h1 : ensureItinerarySavedIfMissing text t
            = { t with itinerary := some (parseItineraryFromText text) } := by
          simp only [ensureItinerarySavedIfMissing]
          rw [if_neg hc, if_neg hp]
        rw [h1]
        have hne : parseItineraryFromText text ≠ [] := by
          simpa [List.isEmpty_iff] using hp
        have h2 : hasItin
            { t with itinerary := some (parseItineraryFromText text) }
            = true := by
          simp [hasItin, List.length_pos, hne]
        simp only [ensureItinerarySavedIfMissing]
        rw [if_pos (by rw [h2]; simp)]
  · intro h
    simp only [ensureItinerarySavedIfMissing]
    rw [if_pos (by rw [h]; simp)]

/-- A trip already holding a one-day itinerary captured via the tool
path and marked fresh. -/
def freshTrip : Trip :=
  { emptyTrip with
    itinerary := some
      [{ day := some 1, date := none, morning := ["Colosseum"],
         afternoon := [], evening := [] }],
    itineraryStatus := some ItinStatus.fresh }

/-- Witness for C8 at a concrete input: with a non-empty stored
itinerary the safety net leaves the context unchanged. -/
theorem C8_recovery_idempotent_witness :
    hasItin freshTrip = true ∧
    ensureItinerarySavedIfMissing "Day 1:\nMorning: Walk" freshTrip
      = freshTrip :=
  ⟨by decide,
   (C8_recovery_idempotent "Day 1:\nMorning: Walk" freshTrip).2 (by decide)⟩

/-- Amended claim C9: neither booking path checks the destination or
date slots themselves. confirm_booking is gated solely on the confirm
flag — false is a silent no-op, true sets bookingConfirmed regardless
of which slots are filled; the simplified booking agent rejects with a
redirect asking for the destination exactly when the destination has
not been validated (a flag, not the slot), and never requires dates. -/
theorem C9_amended_booking_gating (t : Trip) (rid : String) (s : Session) :
    confirmBooking false t = t ∧
    (confirmBooking true t).bookingConfirmed = some true ∧
    (s.isDestinationValidated = false →
      (bookingProcess rid s).1.success = false ∧
      (bookingProcess rid s).2 = s ∧
      (bookingProcess rid s).1.redirect = some "destination") := by
  refine ⟨rfl, rfl, fun h => ?_⟩
  simp [bookingProcess, h]

/-- A session with an unvalidated destination. -/
def invalidSession : Session :=
  { destination := none, isDestinationValidated := false, dates := none,
    paxCount := none, demoItinerary := none, isItineraryFinalized := false,
    bookingDetails := none }

/-- Witness for C9 at a concrete input: the unvalidated session is
rejected with a destination redirect and left unchanged. -/
theorem C9_amended_booking_gating_witness :
    invalidSession.isDestinationValidated = false ∧
    ((bookingProcess "x1y2z3" invalidSession).1.success = false ∧
     (bookingProcess "x1y2z3" invalidSession).2 = invalidSession ∧
     (bookingProcess "x1y2z3" invalidSession).1.redirect
       = some "destination") :=
  ⟨rfl,
   (C9_amended_booking_gating emptyTrip "x1y2z3" invalidSession).2.2 rfl⟩

/-- A validated and finalized session whose dates were never filled in
(the demo flow never writes session.dates). -/
def noDatesSession : Session :=
  { destination := some "Paris", isDestinationValidated := true,
    dates := none, paxCount := none,
    demoItinerary := some
      { destination := some "Paris", days := 3,
        activities := ["Day 1: City tour", "Day 2: Museums",
                       "Day 3: Local experiences"] },
    isItineraryFinalized := true, bookingDetails := none }

/-- Counterexample to claim C9 as stated: with destinationCity absent,
confirm_booking still sets bookingConfirmed; and with travel dates
absent, the simplified booking agent still accepts the booking and
creates confirmed booking details. -/
theorem C9_counterexample_no_slot_check :
    emptyTrip.destinationCity = none ∧
    (confirmBooking true emptyTrip).bookingConfirmed = some true ∧
    noDatesSession.dates = none ∧
    (bookingProcess "abc123xyz" noDatesSession).1.success = true ∧
    (bookingProcess "abc123xyz" noDatesSession).2.bookingDetails
      = some { bookingId := "BKabc123xyz", status := "confirmed" } := by
  decide

/-- Amended claim C10: the deterministic fallback extractor performs
no lower-confidence check at all — every field it extracts (which is
always a truthy value) is written into the trip record unconditionally,
overwriting any value already captured via the tool path. -/
theorem C10_extractor_overwrites (userText : String) (t : Trip) :
    (∀ v, (naiveExtract userText).originCity = JField.val v → v ≠ "" →
      (naiveExtractAndCapture userText t).originCity = some v) ∧
    (∀ v, (naiveExtract userText).destinationCity = JField.val v → v ≠ "" →
      (naiveExtractAndCapture userText t).destinationCity = some v) ∧
    (∀ v, (naiveExtract userText).startDate = JField.val v → v ≠ "" →
      (naiveExtractAndCapture userText t).startDate = some v) ∧
    (∀ v, (naiveExtract userText).endDate = JField.val v → v ≠ "" →
      (naiveExtractAndCapture userText t).endDate = some v) ∧
    (∀ n, (naiveExtract userText).adults = JField.val n →
      (naiveExtractAndCapture userText t).adults = some n) ∧
    (∀ n, (naiveExtract userText).budgetAmount = JField.val n →
      (naiveExtractAndCapture userText t).budgetAmount = some n) ∧
    (∀ v, (naiveExtract userText).currency = JField.val v → v ≠ "" →
      (naiveExtractAndCapture userText t).currency = some v) := by
  refine ⟨fun v hv hne => ?_, fun v hv hne => ?_, fun v hv hne => ?_,
    fun v hv hne => ?_, fun n hn => ?_, fun n hn => ?_, fun v hv hne => ?_⟩
  all_goals
    simp only [naiveExtractAndCapture]
  · rw [if_pos (by simp [hasAnyArg, hv])]
    simp [applySlotUpdates, hv, updS, hne]
  · rw [if_pos (by simp [hasAnyArg, hv])]
    simp [applySlotUpdates, hv, updS, hne]
  · rw [if_pos (by simp [hasAnyArg, hv])]
    simp [applySlotUpdates, hv, updS, hne]
  · rw [if_pos (by simp [hasAnyArg, hv])]
    simp [applySlotUpdates, hv, updS, hne]
  · rw [if_pos (by simp [hasAnyArg, hn])]
    simp [applySlotUpdates, hn, updN]
  · rw [if_pos (by simp [hasAnyArg, hn])]
    simp [applySlotUpdates, hn, updN]
  · rw [if_pos (by simp [hasAnyArg, hv])]
    simp [applySlotUpdates, hv, updS, hne]

/-- A trip whose origin was already captured via the tool path. -/
def delhiOriginTrip : Trip :=
  { emptyTrip with originCity := some "Delhi" }

/-- Witness for C10 at a concrete input: the origin extracted from the
text is written even though an origin is already stored. -/
theorem C10_extractor_overwrites_witness :
    (naiveExtract "flying from Mumbai").originCity = JField.val "Mumbai" ∧
    (naiveExtractAndCapture "flying from Mumbai" delhiOriginTrip).originCity
      = some "Mumbai" :=
  ⟨by decide,
   (C10_extractor_overwrites "flying from Mumbai" delhiOriginTrip).1
     "Mumbai" (by decide) (by decide)⟩

/-- A trip whose destination was already captured via the tool path. -/
def romeDestTrip : Trip :=
  { emptyTrip with destinationCity := some "Rome" }

/-- Counterexample to claim C10 as stated: the destination already
holds a tool-captured value, yet the fallback extractor overwrites it
with its own extracted guess. -/
theorem C10_counterexample_overwrite :
    romeDestTrip.destinationCity = some "Rome" ∧
    (naiveExtractAndCapture "Planning a trip to Paris" romeDestTrip).destinationCity
      = some "Paris" := by
  decide
